import Mathlib

/-!
Shallow embedding of the sync core of `pulp_python/app/models.py`
(class `PythonImporter`: `_fetch_remote`, `_find_delta`, `_parse_package`,
`_build_additions`, `sync`).

Python metadata dictionaries are modelled as association lists (`PyDict`)
over a dynamic value type `PyVal`; Python `None` is `PyVal.pyNone`.
Indexing `d[k]` (which raises `KeyError(k)`) is `dictGetItem`, returning
`Except String` with the missing key as error payload; `d.get(k)` and
`d.get(k, default)` are the total `dictGet` / `dictGetD`; `d.pop(k)` is
`dictPop`.  The injected downloader plus `json.load` is an external
collaborator, modelled as a function `String → Except ε PypiMetadata`.
-/

namespace PulpPython

/-- Dynamic value stored in a Python metadata dictionary: a string, Python
`None`, a list of strings (the dependency lists), or a string-to-string
mapping (the `digests` mapping of a distribution). -/
inductive PyVal where
  | str : String → PyVal
  | pyNone : PyVal
  | listStr : List String → PyVal
  | dictStr : List (String × String) → PyVal
deriving DecidableEq

/-- A Python dict with string keys, as an association list (first binding
wins; every dict assembled by the embedded code has distinct keys). -/
abbrev PyDict := List (String × PyVal)

/-- Key lookup in a Python dict. -/
def dictLookup : PyDict → String → Option PyVal
  | [], _ => none
  | (k', v) :: rest, k => if k' == k then some v else dictLookup rest k

/-- Python `d[k]`: `KeyError(k)` becomes `Except.error k` (the raising access
the spec calls `MalformedRecordError` for required metadata fields). -/
def dictGetItem (d : PyDict) (k : String) : Except String PyVal :=
  match dictLookup d k with
  | some v => Except.ok v
  | none => Except.error k

/-- Python `d.get(k)`: `None` when the key is absent. -/
def dictGet (d : PyDict) (k : String) : PyVal :=
  (dictLookup d k).getD PyVal.pyNone

/-- Python `d.get(k, default)`. -/
def dictGetD (d : PyDict) (k : String) (dflt : PyVal) : PyVal :=
  (dictLookup d k).getD dflt

/-- Effect of Python `d.pop(k)` on the dict (every call site first performed
`d[k]`, so the key is present and `pop` cannot raise). -/
def dictPop : PyDict → String → PyDict
  | [], _ => []
  | (k', v) :: rest, k => if k' == k then dictPop rest k else (k', v) :: dictPop rest k

/-- Key lookup in the string-to-string `digests` mapping. -/
def strLookup : List (String × String) → String → Option String
  | [], _ => none
  | (k', v) :: rest, k => if k' == k then some v else strLookup rest k

/-- Python `v in s` for a set `s` of strings: a value that is not a string is
never equal to a string, so only `PyVal.str` members can test true. -/
def pyStrMem (keys : List String) : PyVal → Bool
  | PyVal.str s => keys.contains s
  | _ => false

/-- `Delta = namedtuple('Delta', ('additions', 'removals'))`. -/
structure Delta where
  additions : List PyDict
  removals : List PyDict
deriving DecidableEq

/-- `set([content['filename'] for content in remote])` of `_find_delta`:
evaluates `content['filename']` for every record (raising on the first record
without a filename); kept as a list, the code only tests membership. -/
def remoteFilenames : List PyDict → Except String (List PyVal)
  | [] => Except.ok []
  | content :: rest =>
    match dictGetItem content "filename" with
    | Except.error k => Except.error k
    | Except.ok f =>
      match remoteFilenames rest with
      | Except.error k => Except.error k
      | Except.ok fs => Except.ok (f :: fs)

/-- `[content for content in remote if content['filename'] in keys]` where
`keys` is a set of values (the `additions_set` comprehension). -/
def filterByValKeys (keys : List PyVal) : List PyDict → Except String (List PyDict)
  | [] => Except.ok []
  | content :: rest =>
    match dictGetItem content "filename" with
    | Except.error k => Except.error k
    | Except.ok f =>
      match filterByValKeys keys rest with
      | Except.error k => Except.error k
      | Except.ok tail => Except.ok (if keys.contains f then content :: tail else tail)

/-- `[content for content in remote if content['filename'] in keys]` where
`keys` is a set of strings (the `removals_set` comprehension). -/
def filterByStrKeys (keys : List String) : List PyDict → Except String (List PyDict)
  | [] => Except.ok []
  | content :: rest =>
    match dictGetItem content "filename" with
    | Except.error k => Except.error k
    | Except.ok f =>
      match filterByStrKeys keys rest with
      | Except.error k => Except.error k
      | Except.ok tail => Except.ok (if pyStrMem keys f then content :: tail else tail)

/-- `PythonImporter._find_delta(inventory, remote, mirror)`:
`remote_keys = set(filenames of remote)`, `additions_set = remote_keys -
inventory`, `additions` filters `remote` by `additions_set`; when `mirror`,
`removals_set = inventory - remote_keys` and `removals` filters `remote` by
`removals_set`, otherwise `removals = []`.  Set membership is modelled on
lists (only membership is ever used). -/
def find_delta (inventory : List String) (remote : List PyDict) (mirror : Bool) :
    Except String Delta :=
  match remoteFilenames remote with
  | Except.error k => Except.error k
  | Except.ok remote_keys =>
    match filterByValKeys (remote_keys.filter (fun fk => !(pyStrMem inventory fk))) remote with
    | Except.error k => Except.error k
    | Except.ok additions =>
      if mirror then
        match filterByStrKeys
            (inventory.filter (fun s => !(remote_keys.contains (PyVal.str s)))) remote with
        | Except.error k => Except.error k
        | Except.ok removals => Except.ok (Delta.mk additions removals)
      else
        Except.ok (Delta.mk additions [])

/-- `distribution['digests'].get('sha256')`: `.get` on a value that is not a
mapping raises (AttributeError), modelled as an error; an absent `sha256` key
yields Python `None`. -/
def digestsGetSha256 : PyVal → Except String PyVal
  | PyVal.dictStr m =>
    match strLookup m "sha256" with
    | some s => Except.ok (PyVal.str s)
    | none => Except.ok PyVal.pyNone
  | _ => Except.error "digests"

/-- `PythonImporter._parse_package(project, version, distribution)`: builds
`package_attrs` in source order.  The raising accesses are
`distribution['filename']`, `distribution['packagetype']`, `project['name']`,
`distribution['url']`, `distribution['digests']`, in that order; every other
field uses `.get` and is total, the four dependency lists defaulting to `[]`. -/
def parse_package (project : PyDict) (version : String) (distribution : PyDict) :
    Except String PyDict :=
  (dictGetItem distribution "filename").bind (fun filename =>
  (dictGetItem distribution "packagetype").bind (fun packagetype =>
  (dictGetItem project "name").bind (fun name =>
  (dictGetItem distribution "url").bind (fun url =>
  (dictGetItem distribution "digests").bind (fun digests =>
  (digestsGetSha256 digests).bind (fun digest =>
  Except.ok [
    ("filename", filename),
    ("packagetype", packagetype),
    ("name", name),
    ("version", PyVal.str version),
    ("metadata_version", PyVal.str "3.0"),
    ("summary", dictGet project "summary"),
    ("description", dictGet project "description"),
    ("keywords", dictGet project "keywords"),
    ("home_page", dictGet project "home_page"),
    ("download_url", dictGet project "download_url"),
    ("author", dictGet project "author"),
    ("author_email", dictGet project "author_email"),
    ("maintainer", dictGet project "maintainer"),
    ("maintainer_email", dictGet project "maintainer_email"),
    ("license", dictGet project "license"),
    ("requires_python", dictGet project "requires_python"),
    ("project_url", dictGet project "project_url"),
    ("platform", dictGet project "platform"),
    ("supported_platform", dictGet project "supported_platform"),
    ("requires_dist", dictGetD project "requires_dist" (PyVal.listStr [])),
    ("provides_dist", dictGetD project "provides_dist" (PyVal.listStr [])),
    ("obsoletes_dist", dictGetD project "obsoletes_dist" (PyVal.listStr [])),
    ("requires_external", dictGetD project "requires_external" (PyVal.listStr [])),
    ("url", url),
    ("digest", digest)]))))))

/-- Shape of one fetched-and-parsed remote index response: the project `info`
object and the insertion-ordered `releases` items (version string to list of
distribution descriptors).  The downloader plus `json.load` is an injected
external collaborator; a network or JSON failure is its error `ε`. -/
structure PypiMetadata where
  info : PyDict
  releases : List (String × List PyDict)

/-- An error aborting a sync cycle: a fetch/parse failure from the injected
downloader for one metadata URL, or a `KeyError` from a metadata record. -/
inductive SyncErr (ε : Type) where
  | fetch : ε → SyncErr ε
  | keyError : String → SyncErr ε

/-- `urljoin(self.feed_url, 'pypi/%s/json' % project)`, for a feed URL ending
in a slash (where `urljoin` is concatenation). -/
def metadataUrl (feed : String) (project : String) : String :=
  feed ++ "pypi/" ++ project ++ "/json"

/-- Inner loop of `_fetch_remote`: `for package in packages:
remote.append(self._parse_package(metadata['info'], version, package))`. -/
def parseDistributions (info : PyDict) (version : String) :
    List PyDict → List PyDict → Except String (List PyDict)
  | remote, [] => Except.ok remote
  | remote, package :: packages =>
    match parse_package info version package with
    | Except.error k => Except.error k
    | Except.ok r => parseDistributions info version (remote ++ [r]) packages

/-- Middle loop of `_fetch_remote`:
`for version, packages in metadata['releases'].items()`. -/
def parseReleases (info : PyDict) :
    List PyDict → List (String × List PyDict) → Except String (List PyDict)
  | remote, [] => Except.ok remote
  | remote, (version, packages) :: rest =>
    match parseDistributions info version remote packages with
    | Except.error k => Except.error k
    | Except.ok remote2 => parseReleases info remote2 rest

/-- Outer loop of `_fetch_remote`: `for metadata_url in metadata_urls:` fetch,
parse, append; the first failing fetch aborts the whole loop. -/
def fetchUrls {ε : Type} (fetchJson : String → Except ε PypiMetadata) :
    List PyDict → List String → Except (SyncErr ε) (List PyDict)
  | remote, [] => Except.ok remote
  | remote, url :: urls =>
    match fetchJson url with
    | Except.error e => Except.error (SyncErr.fetch e)
    | Except.ok metadata =>
      match parseReleases metadata.info remote metadata.releases with
      | Except.error k => Except.error (SyncErr.keyError k)
      | Except.ok remote2 => fetchUrls fetchJson remote2 urls

/-- `PythonImporter._fetch_remote`: builds one metadata URL per project name
(in order) and runs the fetch/parse loop starting from an empty list. -/
def fetch_remote {ε : Type} (fetchJson : String → Except ε PypiMetadata) (feed : String)
    (project_names : List String) : Except (SyncErr ε) (List PyDict) :=
  fetchUrls fetchJson [] (project_names.map (fun project => metadataUrl feed project))

/-- `PendingArtifact(model=Artifact(sha256=...), url=..., relative_path=...)`
of `_build_additions`, with the `Artifact` flattened to its `sha256` field. -/
structure PendingArtifact where
  sha256 : PyVal
  url : PyVal
  relative_path : PyVal
deriving DecidableEq

/-- `PendingContent(package, artifacts={...})` of `_build_additions`:
`package` is `PythonPackageContent(**entry)`, i.e. the entry dict as the
builder leaves it after the two `pop` calls. -/
structure PendingContent where
  package : PyDict
  artifact : PendingArtifact
deriving DecidableEq

/-- One iteration of `PythonImporter._build_additions`: reads
`entry['url']` and `entry['digest']`, then `entry.pop('url')` and
`entry.pop('digest')` mutate the record, then the content is built with
`relative_path=entry['filename']` read from the popped record. -/
def build_addition (entry : PyDict) : Except String PendingContent :=
  (dictGetItem entry "url").bind (fun url =>
  (dictGetItem entry "digest").bind (fun digest =>
    let entry2 := dictPop (dictPop entry "url") "digest"
    (dictGetItem entry2 "filename").bind (fun relative_path =>
    Except.ok (PendingContent.mk entry2 (PendingArtifact.mk digest url relative_path)))))

/-- `PythonImporter._build_additions(additions)`: one `PendingContent` yielded
per addition record, in order (the generator is modelled eagerly; it is fully
drained by the changeset within the same cycle). -/
def build_additions : List PyDict → Except String (List PendingContent)
  | [] => Except.ok []
  | entry :: rest =>
    match build_addition entry with
    | Except.error k => Except.error k
    | Except.ok content =>
      match build_additions rest with
      | Except.error k => Except.error k
      | Except.ok contents => Except.ok (content :: contents)

/-- What `sync` hands to the external changeset collaborator
(`ChangeSet(self, additions=SizedIterable(gen, len(delta.additions)))`): the
built pending contents and the declared total count. -/
structure ChangeSetApplied where
  additions : List PendingContent
  declaredCount : Nat
deriving DecidableEq

/-- `PythonImporter.sync`: fetches the remote records (the local inventory
query `_fetch_inventory` is the external repository collaborator, passed in
as `inventory`), computes the delta with the default `mirror=True`, sizes and
builds the additions, and hands them to the external changeset collaborator.
`Except.ok` carries exactly what the collaborator received; `Except.error`
means the cycle aborted before anything was handed over. -/
def sync {ε : Type} (fetchJson : String → Except ε PypiMetadata) (feed : String)
    (project_names : List String) (inventory : List String) :
    Except (SyncErr ε) ChangeSetApplied :=
  match fetch_remote fetchJson feed project_names with
  | Except.error e => Except.error e
  | Except.ok remote =>
    match find_delta inventory remote true with
    | Except.error k => Except.error (SyncErr.keyError k)
    | Except.ok delta =>
      match build_additions delta.additions with
      | Except.error k => Except.error (SyncErr.keyError k)
      | Except.ok additions =>
        Except.ok (ChangeSetApplied.mk additions delta.additions.length)

/-! ### Dictionary lemmas -/

theorem dictGetItem_ok_iff (d : PyDict) (k : String) (v : PyVal) :
    dictGetItem d k = Except.ok v ↔ dictLookup d k = some v := by
  unfold dictGetItem
  cases dictLookup d k <;> simp

theorem dictLookup_dictPop_self (d : PyDict) (k : String) :
    dictLookup (dictPop d k) k = none := by
  induction d with
  | nil => rfl
  | cons kv rest ih =>
    obtain ⟨k', v⟩ := kv
    cases h : k' == k <;> simp [dictPop, h, dictLookup, ih]

theorem dictLookup_dictPop_ne (d : PyDict) (kp k : String) (hne : kp ≠ k) :
    dictLookup (dictPop d kp) k = dictLookup d k := by
  induction d with
  | nil => rfl
  | cons kv rest ih =>
    obtain ⟨k', v⟩ := kv
    cases h : k' == kp
    · simp only [dictPop, h, if_neg (by simp at h ⊢; exact h)]
      simp [dictLookup, ih]
    · have hk : k' = kp := by simpa using h
      subst hk
      simp [dictPop, dictLookup, ih, hne]

/-! ### `_find_delta` lemmas -/

theorem remoteFilenames_ok {remote : List PyDict} {ks : List PyVal}
    (h : remoteFilenames remote = Except.ok ks) :
    ks = remote.map (fun c => dictGet c "filename") ∧
      ∀ c ∈ remote, (dictLookup c "filename").isSome = true := by
  induction remote generalizing ks with
  | nil =>
    simp only [remoteFilenames] at h
    cases h
    simp
  | cons c rest ih =>
    revert h
    unfold remoteFilenames
    cases hc : dictGetItem c "filename" with
    | error k => intro h; cases h
    | ok f =>
      cases hr : remoteFilenames rest with
      | error k => intro h; cases h
      | ok fs =>
        intro h
        cases h
        obtain ⟨h1, h2⟩ := ih hr
        have hcl : dictLookup c "filename" = some f := (dictGetItem_ok_iff _ _ _).mp hc
        constructor
        · simp [h1, dictGet, hcl]
        · intro x hx
          cases hx with
          | head => simp [hcl]
          | tail _ hx => exact h2 x hx

theorem filterByValKeys_ok (keys : List PyVal) {remote : List PyDict}
    (h : ∀ c ∈ remote, (dictLookup c "filename").isSome = true) :
    filterByValKeys keys remote =
      Except.ok (remote.filter (fun c => keys.contains (dictGet c "filename"))) := by
  induction remote with
  | nil => rfl
  | cons c rest ih =>
    have hc : (dictLookup c "filename").isSome = true := h c (by simp)
    obtain ⟨f, hf⟩ := Option.isSome_iff_exists.mp hc
    have hrest : ∀ x ∈ rest, (dictLookup x "filename").isSome = true :=
      fun x hx => h x (by simp [hx])
    unfold filterByValKeys
    rw [show dictGetItem c "filename" = Except.ok f from (dictGetItem_ok_iff _ _ _).mpr hf]
    rw [ih hrest]
    simp [List.filter_cons, dictGet, hf]

theorem filterByStrKeys_ok (keys : List String) {remote : List PyDict}
    (h : ∀ c ∈ remote, (dictLookup c "filename").isSome = true) :
    filterByStrKeys keys remote =
      Except.ok (remote.filter (fun c => pyStrMem keys (dictGet c "filename"))) := by
  induction remote with
  | nil => rfl
  | cons c rest ih =>
    have hc : (dictLookup c "filename").isSome = true := h c (by simp)
    obtain ⟨f, hf⟩ := Option.isSome_iff_exists.mp hc
    have hrest : ∀ x ∈ rest, (dictLookup x "filename").isSome = true :=
      fun x hx => h x (by simp [hx])
    unfold filterByStrKeys
    rw [show dictGetItem c "filename" = Except.ok f from (dictGetItem_ok_iff _ _ _).mpr hf]
    rw [ih hrest]
    simp [List.filter_cons, dictGet, hf]

theorem find_delta_additions_eq {inventory : List String} {remote : List PyDict}
    {mirror : Bool} {d : Delta} (h : find_delta inventory remote mirror = Except.ok d) :
    d.additions = remote.filter (fun c => !(pyStrMem inventory (dictGet c "filename"))) := by
  revert h
  unfold find_delta
  cases hks : remoteFilenames remote with
  | error k => intro h; cases h
  | ok remote_keys =>
    obtain ⟨hmap, hsome⟩ := remoteFilenames_ok hks
    dsimp only
    rw [filterByValKeys_ok _ hsome]
    have hfit : remote.filter
        (fun c => (remote_keys.filter
          (fun fk => !(pyStrMem inventory fk))).contains (dictGet c "filename"))
        = remote.filter (fun c => !(pyStrMem inventory (dictGet c "filename"))) := by
      apply List.filter_congr
      intro c hc
      have hmem : dictGet c "filename" ∈ remote_keys := by
        rw [hmap]
        exact List.mem_map.mpr ⟨c, hc, rfl⟩
      by_cases hp : pyStrMem inventory (dictGet c "filename") = true
      · simp [List.contains, List.mem_filter, hp]
      · simp only [Bool.not_eq_true] at hp
        simp [List.contains, List.mem_filter, hmem, hp]
    rw [hfit]
    cases mirror with
    | false =>
      intro h
      cases h
      rfl
    | true =>
      rw [filterByStrKeys_ok _ hsome]
      intro h
      cases h
      rfl

theorem find_delta_removals_eq_nil {inventory : List String} {remote : List PyDict}
    {mirror : Bool} {d : Delta} (h : find_delta inventory remote mirror = Except.ok d) :
    d.removals = [] := by
  revert h
  unfold find_delta
  cases hks : remoteFilenames remote with
  | error k => intro h; cases h
  | ok remote_keys =>
    obtain ⟨hmap, hsome⟩ := remoteFilenames_ok hks
    dsimp only
    rw [filterByValKeys_ok _ hsome]
    cases mirror with
    | false =>
      intro h
      cases h
      rfl
    | true =>
      rw [filterByStrKeys_ok _ hsome]
      have hnil : remote.filter
          (fun c => pyStrMem
            (inventory.filter (fun s => !(remote_keys.contains (PyVal.str s))))
            (dictGet c "filename")) = [] := by
        rw [List.filter_eq_nil_iff]
        intro c hc hp
        have hmem : dictGet c "filename" ∈ remote_keys := by
          rw [hmap]
          exact List.mem_map.mpr ⟨c, hc, rfl⟩
        cases hf : dictGet c "filename" with
        | str s =>
          rw [hf] at hp hmem
          simp only [pyStrMem, List.contains, List.elem_eq_mem, decide_eq_true_eq,
            List.mem_filter, Bool.not_eq_true'] at hp
          have := hp.2
          simp [List.contains, hmem] at this
        | pyNone => rw [hf] at hp; simp [pyStrMem] at hp
        | listStr l => rw [hf] at hp; simp [pyStrMem] at hp
        | dictStr m => rw [hf] at hp; simp [pyStrMem] at hp
      rw [hnil]
      intro h
      cases h
      rfl

/-- Counting helper: filtering by a predicate implied by `p` does not change
the number of `p`-elements. -/
theorem countP_filter_of_imp {α : Type} (p q : α → Bool) (l : List α)
    (h : ∀ a, p a = true → q a = true) :
    List.countP p (l.filter q) = List.countP p l := by
  rw [List.countP_filter]
  apply List.countP_congr
  intro a _
  simp only [Bool.and_eq_true]
  exact ⟨fun hx => hx.1, fun hx => ⟨hx, h a hx⟩⟩

/-! ### Concrete records for scenario evaluations -/

/-- Remote record with filename `a-1.0.tar.gz`. -/
def recA : PyDict := [("filename", PyVal.str "a-1.0.tar.gz")]

/-- Remote record with filename `b-2.0.tar.gz`. -/
def recB : PyDict := [("filename", PyVal.str "b-2.0.tar.gz")]

/-- First of two duplicate-filename remote records. -/
def recDup1 : PyDict := [("filename", PyVal.str "a-1.0.tar.gz"), ("version", PyVal.str "1.0")]

/-- Second duplicate-filename remote record, distinct from the first. -/
def recDup2 : PyDict := [("filename", PyVal.str "a-1.0.tar.gz"), ("version", PyVal.str "2.0")]

/-! ### Claim theorems about `_find_delta` -/

/-- C1: at the spec scenario `L = {a-1.0.tar.gz, old-0.1.tar.gz}`,
`R = [{filename: a-1.0.tar.gz}]`, `mirror = true`, the code returns
`removals = []`, not the claimed `[old-0.1.tar.gz]` stub: the removals
comprehension filters the *remote* sequence by `removals_set =
inventory - remote_keys`, and no remote record's filename can lie in that
set, so mirror-mode removals are always empty. -/
theorem find_delta_mirror_scenario_removals_empty :
    find_delta ["a-1.0.tar.gz", "old-0.1.tar.gz"] [recA] true =
      Except.ok (Delta.mk [] []) := rfl

/-- C3: whenever `_find_delta` succeeds, its additions are exactly the remote
records whose filename is not in the local inventory, kept in remote order. -/
theorem find_delta_additions_spec (inventory : List String) (remote : List PyDict)
    (mirror : Bool) (d : Delta) (h : find_delta inventory remote mirror = Except.ok d) :
    d.additions = remote.filter (fun c => !(pyStrMem inventory (dictGet c "filename"))) :=
  find_delta_additions_eq h

/-- Witness for C3 at the spec scenario `L = {a-1.0.tar.gz}`,
`R = [a-1.0.tar.gz, b-2.0.tar.gz]`: additions are `[b-2.0.tar.gz]`. -/
theorem find_delta_additions_spec_witness :
    find_delta ["a-1.0.tar.gz"] [recA, recB] true = Except.ok (Delta.mk [recB] []) ∧
      (Delta.mk [recB] []).additions =
        List.filter (fun c => !(pyStrMem ["a-1.0.tar.gz"] (dictGet c "filename")))
          [recA, recB] :=
  ⟨rfl, find_delta_additions_spec ["a-1.0.tar.gz"] [recA, recB] true (Delta.mk [recB] []) rfl⟩

/-- C9: with `mirror = false`, a successful `_find_delta` always returns empty
removals. -/
theorem find_delta_additive_removals_empty (inventory : List String) (remote : List PyDict)
    (d : Delta) (h : find_delta inventory remote false = Except.ok d) :
    d.removals = [] :=
  find_delta_removals_eq_nil h

/-- Witness for C9 at `L = {a-1.0.tar.gz}`, `R = [a-1.0.tar.gz, b-2.0.tar.gz]`. -/
theorem find_delta_additive_removals_empty_witness :
    find_delta ["a-1.0.tar.gz"] [recA, recB] false = Except.ok (Delta.mk [recB] []) ∧
      (Delta.mk [recB] []).removals = [] :=
  ⟨rfl, find_delta_additive_removals_empty ["a-1.0.tar.gz"] [recA, recB] (Delta.mk [recB] []) rfl⟩

/-- C2 counterexample: two distinct remote records sharing one filename are
*both* retained in additions — the pipeline performs no deduplication, so
additions can contain two records with the same filename. -/
theorem find_delta_duplicate_filenames_cex :
    find_delta [] [recDup1, recDup2] true = Except.ok (Delta.mk [recDup1, recDup2] []) ∧
      recDup1 ≠ recDup2 ∧
      dictLookup recDup1 "filename" = dictLookup recDup2 "filename" :=
  ⟨rfl, by decide, rfl⟩

/-- C2 amended: no deduplication happens anywhere in the diff pipeline; every
remote record whose filename string is absent from the local inventory is
retained in additions with its full multiplicity in the remote sequence. -/
theorem find_delta_no_dedup_count (inventory : List String) (remote : List PyDict)
    (mirror : Bool) (d : Delta) (f : String)
    (h : find_delta inventory remote mirror = Except.ok d)
    (hf : inventory.contains f = false) :
    d.additions.countP (fun c => dictGet c "filename" == PyVal.str f) =
      remote.countP (fun c => dictGet c "filename" == PyVal.str f) := by
  rw [find_delta_additions_eq h]
  apply countP_filter_of_imp
  intro c hc
  have hcf : dictGet c "filename" = PyVal.str f := by simpa using hc
  rw [hcf]
  simp only [pyStrMem, Bool.not_eq_true']
  exact hf

/-- Witness for the amended C2: both duplicate records survive into additions
(multiplicity 2 on both sides). -/
theorem find_delta_no_dedup_count_witness :
    find_delta [] [recDup1, recDup2] true = Except.ok (Delta.mk [recDup1, recDup2] []) ∧
      ([] : List String).contains "a-1.0.tar.gz" = false ∧
      (Delta.mk [recDup1, recDup2] []).additions.countP
          (fun c => dictGet c "filename" == PyVal.str "a-1.0.tar.gz") =
        List.countP (fun c => dictGet c "filename" == PyVal.str "a-1.0.tar.gz")
          [recDup1, recDup2] :=
  ⟨rfl, rfl,
    find_delta_no_dedup_count [] [recDup1, recDup2] true (Delta.mk [recDup1, recDup2] [])
      "a-1.0.tar.gz" rfl rfl⟩

/-! ### `_parse_package` lemmas -/

theorem parse_package_ok {project distribution : PyDict} {version : String}
    {fn pt nm u dv dg : PyVal}
    (h1 : dictLookup distribution "filename" = some fn)
    (h2 : dictLookup distribution "packagetype" = some pt)
    (h3 : dictLookup project "name" = some nm)
    (h4 : dictLookup distribution "url" = some u)
    (h5 : dictLookup distribution "digests" = some dv)
    (h6 : digestsGetSha256 dv = Except.ok dg) :
    parse_package project version distribution = Except.ok [
      ("filename", fn),
      ("packagetype", pt),
      ("name", nm),
      ("version", PyVal.str version),
      ("metadata_version", PyVal.str "3.0"),
      ("summary", dictGet project "summary"),
      ("description", dictGet project "description"),
      ("keywords", dictGet project "keywords"),
      ("home_page", dictGet project "home_page"),
      ("download_url", dictGet project "download_url"),
      ("author", dictGet project "author"),
      ("author_email", dictGet project "author_email"),
      ("maintainer", dictGet project "maintainer"),
      ("maintainer_email", dictGet project "maintainer_email"),
      ("license", dictGet project "license"),
      ("requires_python", dictGet project "requires_python"),
      ("project_url", dictGet project "project_url"),
      ("platform", dictGet project "platform"),
      ("supported_platform", dictGet project "supported_platform"),
      ("requires_dist", dictGetD project "requires_dist" (PyVal.listStr [])),
      ("provides_dist", dictGetD project "provides_dist" (PyVal.listStr [])),
      ("obsoletes_dist", dictGetD project "obsoletes_dist" (PyVal.listStr [])),
      ("requires_external", dictGetD project "requires_external" (PyVal.listStr [])),
      ("url", u),
      ("digest", dg)] := by
  have e1 : dictGetItem distribution "filename" = Except.ok fn :=
    (dictGetItem_ok_iff _ _ _).mpr h1
  have e2 : dictGetItem distribution "packagetype" = Except.ok pt :=
    (dictGetItem_ok_iff _ _ _).mpr h2
  have e3 : dictGetItem project "name" = Except.ok nm :=
    (dictGetItem_ok_iff _ _ _).mpr h3
  have e4 : dictGetItem distribution "url" = Except.ok u :=
    (dictGetItem_ok_iff _ _ _).mpr h4
  have e5 : dictGetItem distribution "digests" = Except.ok dv :=
    (dictGetItem_ok_iff _ _ _).mpr h5
  simp only [parse_package, e1, e2, e3, e4, e5, h6, Except.bind]

theorem parse_package_error_filename {project distribution : PyDict} {version : String}
    (h : dictLookup distribution "filename" = none) :
    parse_package project version distribution = Except.error "filename" := by
  unfold parse_package dictGetItem
  rw [h]
  rfl

theorem parse_package_error_packagetype {project distribution : PyDict} {version : String}
    {fn : PyVal} (h1 : dictLookup distribution "filename" = some fn)
    (h : dictLookup distribution "packagetype" = none) :
    parse_package project version distribution = Except.error "packagetype" := by
  unfold parse_package dictGetItem
  rw [h1, h]
  rfl

theorem parse_package_error_name {project distribution : PyDict} {version : String}
    {fn pt : PyVal} (h1 : dictLookup distribution "filename" = some fn)
    (h2 : dictLookup distribution "packagetype" = some pt)
    (h : dictLookup project "name" = none) :
    parse_package project version distribution = Except.error "name" := by
  unfold parse_package dictGetItem
  rw [h1, h2, h]
  rfl

theorem digestsGetSha256_exists_ok (m : List (String × String)) :
    ∃ dg, digestsGetSha256 (PyVal.dictStr m) = Except.ok dg := by
  cases h : strLookup m "sha256" with
  | none => exact ⟨PyVal.pyNone, by simp [digestsGetSha256, h]⟩
  | some s => exact ⟨PyVal.str s, by simp [digestsGetSha256, h]⟩

/-! ### Claim theorems about `_parse_package` -/

/-- Project info carrying only the required `name`. -/
def projectW : PyDict := [("name", PyVal.str "a")]

/-- Distribution descriptor whose digests mapping has no `sha256` entry. -/
def distributionNoSha : PyDict :=
  [("filename", PyVal.str "a-1.0.tar.gz"),
   ("packagetype", PyVal.str "sdist"),
   ("url", PyVal.str "https://example.invalid/a-1.0.tar.gz"),
   ("digests", PyVal.dictStr [("md5", "00")])]

/-- Distribution descriptor with a `sha256` digest entry. -/
def distributionSha : PyDict :=
  [("filename", PyVal.str "a-1.0.tar.gz"),
   ("packagetype", PyVal.str "sdist"),
   ("url", PyVal.str "https://example.invalid/a-1.0.tar.gz"),
   ("digests", PyVal.dictStr [("sha256", "0abc")])]

/-- C4: with the required inputs present but no `sha256` entry in the digests
mapping, normalization succeeds and the record's `digest` field is Python
`None` — unset, not an error and not a placeholder value. -/
theorem parse_package_missing_sha256_unset (project distribution : PyDict) (version : String)
    (fn pt nm u : PyVal) (m : List (String × String))
    (h1 : dictLookup distribution "filename" = some fn)
    (h2 : dictLookup distribution "packagetype" = some pt)
    (h3 : dictLookup project "name" = some nm)
    (h4 : dictLookup distribution "url" = some u)
    (h5 : dictLookup distribution "digests" = some (PyVal.dictStr m))
    (h6 : strLookup m "sha256" = none) :
    ∃ r, parse_package project version distribution = Except.ok r ∧
      dictLookup r "digest" = some PyVal.pyNone := by
  have hdg : digestsGetSha256 (PyVal.dictStr m) = Except.ok PyVal.pyNone := by
    simp [digestsGetSha256, h6]
  refine ⟨_, parse_package_ok h1 h2 h3 h4 h5 hdg, ?_⟩
  rfl

/-- Witness for C4 at a concrete distribution whose digests hold only `md5`. -/
theorem parse_package_missing_sha256_unset_witness :
    dictLookup distributionNoSha "filename" = some (PyVal.str "a-1.0.tar.gz") ∧
      dictLookup distributionNoSha "packagetype" = some (PyVal.str "sdist") ∧
      dictLookup projectW "name" = some (PyVal.str "a") ∧
      dictLookup distributionNoSha "url" =
        some (PyVal.str "https://example.invalid/a-1.0.tar.gz") ∧
      dictLookup distributionNoSha "digests" = some (PyVal.dictStr [("md5", "00")]) ∧
      strLookup [("md5", "00")] "sha256" = none ∧
      (∃ r, parse_package projectW "1.0" distributionNoSha = Except.ok r ∧
        dictLookup r "digest" = some PyVal.pyNone) :=
  ⟨rfl, rfl, rfl, rfl, rfl, rfl,
    parse_package_missing_sha256_unset projectW distributionNoSha "1.0"
      (PyVal.str "a-1.0.tar.gz") (PyVal.str "sdist") (PyVal.str "a")
      (PyVal.str "https://example.invalid/a-1.0.tar.gz") [("md5", "00")]
      rfl rfl rfl rfl rfl rfl⟩

/-- C5: with the required fields present, normalization is total over absent
optional fields: every absent optional scalar field of the project mapping
becomes Python `None` in the record, every absent dependency-list field
becomes the empty list (never `None`), and no error is raised. -/
theorem parse_package_optional_defaults (project distribution : PyDict) (version : String)
    (fn pt nm u : PyVal) (m : List (String × String))
    (h1 : dictLookup distribution "filename" = some fn)
    (h2 : dictLookup distribution "packagetype" = some pt)
    (h3 : dictLookup project "name" = some nm)
    (h4 : dictLookup distribution "url" = some u)
    (h5 : dictLookup distribution "digests" = some (PyVal.dictStr m)) :
    ∃ r, parse_package project version distribution = Except.ok r ∧
      (dictLookup project "summary" = none → dictLookup r "summary" = some PyVal.pyNone) ∧
      (dictLookup project "description" = none →
        dictLookup r "description" = some PyVal.pyNone) ∧
      (dictLookup project "keywords" = none → dictLookup r "keywords" = some PyVal.pyNone) ∧
      (dictLookup project "home_page" = none → dictLookup r "home_page" = some PyVal.pyNone) ∧
      (dictLookup project "download_url" = none →
        dictLookup r "download_url" = some PyVal.pyNone) ∧
      (dictLookup project "author" = none → dictLookup r "author" = some PyVal.pyNone) ∧
      (dictLookup project "author_email" = none →
        dictLookup r "author_email" = some PyVal.pyNone) ∧
      (dictLookup project "maintainer" = none →
        dictLookup r "maintainer" = some PyVal.pyNone) ∧
      (dictLookup project "maintainer_email" = none →
        dictLookup r "maintainer_email" = some PyVal.pyNone) ∧
      (dictLookup project "license" = none → dictLookup r "license" = some PyVal.pyNone) ∧
      (dictLookup project "requires_python" = none →
        dictLookup r "requires_python" = some PyVal.pyNone) ∧
      (dictLookup project "project_url" = none →
        dictLookup r "project_url" = some PyVal.pyNone) ∧
      (dictLookup project "platform" = none → dictLookup r "platform" = some PyVal.pyNone) ∧
      (dictLookup project "supported_platform" = none →
        dictLookup r "supported_platform" = some PyVal.pyNone) ∧
      (dictLookup project "requires_dist" = none →
        dictLookup r "requires_dist" = some (PyVal.listStr [])) ∧
      (dictLookup project "provides_dist" = none →
        dictLookup r "provides_dist" = some (PyVal.listStr [])) ∧
      (dictLookup project "obsoletes_dist" = none →
        dictLookup r "obsoletes_dist" = some (PyVal.listStr [])) ∧
      (dictLookup project "requires_external" = none →
        dictLookup r "requires_external" = some (PyVal.listStr [])) := by
  obtain ⟨dg, hdg⟩ := digestsGetSha256_exists_ok m
  refine ⟨_, parse_package_ok h1 h2 h3 h4 h5 hdg,
    ?_, ?_, ?_, ?_, ?_, ?_, ?_, ?_, ?_, ?_, ?_, ?_, ?_, ?_, ?_, ?_, ?_, ?_⟩
  · intro hmiss
    show some ((dictLookup project "summary").getD PyVal.pyNone) = some PyVal.pyNone
    rw [hmiss]
    rfl
  · intro hmiss
    show some ((dictLookup project "description").getD PyVal.pyNone) = some PyVal.pyNone
    rw [hmiss]
    rfl
  · intro hmiss
    show some ((dictLookup project "keywords").getD PyVal.pyNone) = some PyVal.pyNone
    rw [hmiss]
    rfl
  · intro hmiss
    show some ((dictLookup project "home_page").getD PyVal.pyNone) = some PyVal.pyNone
    rw [hmiss]
    rfl
  · intro hmiss
    show some ((dictLookup project "download_url").getD PyVal.pyNone) = some PyVal.pyNone
    rw [hmiss]
    rfl
  · intro hmiss
    show some ((dictLookup project "author").getD PyVal.pyNone) = some PyVal.pyNone
    rw [hmiss]
    rfl
  · intro hmiss
    show some ((dictLookup project "author_email").getD PyVal.pyNone) = some PyVal.pyNone
    rw [hmiss]
    rfl
  · intro hmiss
    show some ((dictLookup project "maintainer").getD PyVal.pyNone) = some PyVal.pyNone
    rw [hmiss]
    rfl
  · intro hmiss
    show some ((dictLookup project "maintainer_email").getD PyVal.pyNone) = some PyVal.pyNone
    rw [hmiss]
    rfl
  · intro hmiss
    show some ((dictLookup project "license").getD PyVal.pyNone) = some PyVal.pyNone
    rw [hmiss]
    rfl
  · intro hmiss
    show some ((dictLookup project "requires_python").getD PyVal.pyNone) = some PyVal.pyNone
    rw [hmiss]
    rfl
  · intro hmiss
    show some ((dictLookup project "project_url").getD PyVal.pyNone) = some PyVal.pyNone
    rw [hmiss]
    rfl
  · intro hmiss
    show some ((dictLookup project "platform").getD PyVal.pyNone) = some PyVal.pyNone
    rw [hmiss]
    rfl
  · intro hmiss
    show some ((dictLookup project "supported_platform").getD PyVal.pyNone)
      = some PyVal.pyNone
    rw [hmiss]
    rfl
  · intro hmiss
    show some ((dictLookup project "requires_dist").getD (PyVal.listStr []))
      = some (PyVal.listStr [])
    rw [hmiss]
    rfl
  · intro hmiss
    show some ((dictLookup project "provides_dist").getD (PyVal.listStr []))
      = some (PyVal.listStr [])
    rw [hmiss]
    rfl
  · intro hmiss
    show some ((dictLookup project "obsoletes_dist").getD (PyVal.listStr []))
      = some (PyVal.listStr [])
    rw [hmiss]
    rfl
  · intro hmiss
    show some ((dictLookup project "requires_external").getD (PyVal.listStr []))
      = some (PyVal.listStr [])
    rw [hmiss]
    rfl

/-- Witness for C5 at a project mapping holding only `name`: every optional
scalar is absent and every dependency list is absent. -/
theorem parse_package_optional_defaults_witness :
    dictLookup distributionSha "filename" = some (PyVal.str "a-1.0.tar.gz") ∧
      dictLookup distributionSha "packagetype" = some (PyVal.str "sdist") ∧
      dictLookup projectW "name" = some (PyVal.str "a") ∧
      dictLookup distributionSha "url" =
        some (PyVal.str "https://example.invalid/a-1.0.tar.gz") ∧
      dictLookup distributionSha "digests" = some (PyVal.dictStr [("sha256", "0abc")]) ∧
      (∃ r, parse_package projectW "1.0" distributionSha = Except.ok r ∧
        (dictLookup projectW "summary" = none →
          dictLookup r "summary" = some PyVal.pyNone) ∧
        (dictLookup projectW "description" = none →
          dictLookup r "description" = some PyVal.pyNone) ∧
        (dictLookup projectW "keywords" = none →
          dictLookup r "keywords" = some PyVal.pyNone) ∧
        (dictLookup projectW "home_page" = none →
          dictLookup r "home_page" = some PyVal.pyNone) ∧
        (dictLookup projectW "download_url" = none →
          dictLookup r "download_url" = some PyVal.pyNone) ∧
        (dictLookup projectW "author" = none →
          dictLookup r "author" = some PyVal.pyNone) ∧
        (dictLookup projectW "author_email" = none →
          dictLookup r "author_email" = some PyVal.pyNone) ∧
        (dictLookup projectW "maintainer" = none →
          dictLookup r "maintainer" = some PyVal.pyNone) ∧
        (dictLookup projectW "maintainer_email" = none →
          dictLookup r "maintainer_email" = some PyVal.pyNone) ∧
        (dictLookup projectW "license" = none →
          dictLookup r "license" = some PyVal.pyNone) ∧
        (dictLookup projectW "requires_python" = none →
          dictLookup r "requires_python" = some PyVal.pyNone) ∧
        (dictLookup projectW "project_url" = none →
          dictLookup r "project_url" = some PyVal.pyNone) ∧
        (dictLookup projectW "platform" = none →
          dictLookup r "platform" = some PyVal.pyNone) ∧
        (dictLookup projectW "supported_platform" = none →
          dictLookup r "supported_platform" = some PyVal.pyNone) ∧
        (dictLookup projectW "requires_dist" = none →
          dictLookup r "requires_dist" = some (PyVal.listStr [])) ∧
        (dictLookup projectW "provides_dist" = none →
          dictLookup r "provides_dist" = some (PyVal.listStr [])) ∧
        (dictLookup projectW "obsoletes_dist" = none →
          dictLookup r "obsoletes_dist" = some (PyVal.listStr [])) ∧
        (dictLookup projectW "requires_external" = none →
          dictLookup r "requires_external" = some (PyVal.listStr []))) :=
  ⟨rfl, rfl, rfl, rfl, rfl,
    parse_package_optional_defaults projectW distributionSha "1.0"
      (PyVal.str "a-1.0.tar.gz") (PyVal.str "sdist") (PyVal.str "a")
      (PyVal.str "https://example.invalid/a-1.0.tar.gz") [("sha256", "0abc")]
      rfl rfl rfl rfl rfl⟩

/-- C6: with the other required inputs supplied (`url` present and `digests`
present as a mapping), normalization succeeds exactly when the distribution's
filename, the distribution's package type, and the project's name are all
present; when one of them is missing it fails with the key error for that
field. -/
theorem parse_package_required_fields_iff (project distribution : PyDict) (version : String)
    (u : PyVal) (m : List (String × String))
    (hurl : dictLookup distribution "url" = some u)
    (hdig : dictLookup distribution "digests" = some (PyVal.dictStr m)) :
    (∃ r, parse_package project version distribution = Except.ok r) ↔
      ((dictLookup distribution "filename").isSome = true ∧
        (dictLookup distribution "packagetype").isSome = true ∧
        (dictLookup project "name").isSome = true) := by
  obtain ⟨dg, hdg2⟩ := digestsGetSha256_exists_ok m
  constructor
  · rintro ⟨r, hr⟩
    cases hf : dictLookup distribution "filename" with
    | none =>
      rw [parse_package_error_filename hf] at hr
      cases hr
    | some fn =>
      cases hp : dictLookup distribution "packagetype" with
      | none =>
        rw [parse_package_error_packagetype hf hp] at hr
        cases hr
      | some pt =>
        cases hn : dictLookup project "name" with
        | none =>
          rw [parse_package_error_name hf hp hn] at hr
          cases hr
        | some nm => exact ⟨by simp [hf], by simp [hp], by simp [hn]⟩
  · rintro ⟨hf, hp, hn⟩
    obtain ⟨fn, hfv⟩ := Option.isSome_iff_exists.mp hf
    obtain ⟨pt, hpv⟩ := Option.isSome_iff_exists.mp hp
    obtain ⟨nm, hnv⟩ := Option.isSome_iff_exists.mp hn
    exact ⟨_, parse_package_ok hfv hpv hnv hurl hdig hdg2⟩

/-- Witness for C6 at a concrete well-formed input: all three required fields
are present and normalization succeeds. -/
theorem parse_package_required_fields_iff_witness :
    dictLookup distributionSha "url" =
        some (PyVal.str "https://example.invalid/a-1.0.tar.gz") ∧
      dictLookup distributionSha "digests" = some (PyVal.dictStr [("sha256", "0abc")]) ∧
      ((∃ r, parse_package projectW "1.0" distributionSha = Except.ok r) ↔
        ((dictLookup distributionSha "filename").isSome = true ∧
          (dictLookup distributionSha "packagetype").isSome = true ∧
          (dictLookup projectW "name").isSome = true)) :=
  ⟨rfl, rfl,
    parse_package_required_fields_iff projectW distributionSha "1.0"
      (PyVal.str "https://example.invalid/a-1.0.tar.gz") [("sha256", "0abc")] rfl rfl⟩

/-! ### `_build_additions` lemmas -/

theorem build_addition_ok {entry : PyDict} {content : PendingContent}
    (h : build_addition entry = Except.ok content) :
    dictLookup entry "url" = some content.artifact.url ∧
      dictLookup entry "digest" = some content.artifact.sha256 ∧
      dictLookup entry "filename" = some content.artifact.relative_path ∧
      content.package = dictPop (dictPop entry "url") "digest" := by
  unfold build_addition at h
  cases hu : dictGetItem entry "url" with
  | error k =>
    rw [hu] at h
    simp [Except.bind] at h
  | ok url =>
    rw [hu] at h
    simp only [Except.bind] at h
    cases hd : dictGetItem entry "digest" with
    | error k =>
      rw [hd] at h
      simp [Except.bind] at h
    | ok digest =>
      rw [hd] at h
      simp only [Except.bind] at h
      cases hf : dictGetItem (dictPop (dictPop entry "url") "digest") "filename" with
      | error k =>
        rw [hf] at h
        simp [Except.bind] at h
      | ok rp =>
        rw [hf] at h
        simp only [Except.bind] at h
        cases h
        refine ⟨(dictGetItem_ok_iff _ _ _).mp hu, (dictGetItem_ok_iff _ _ _).mp hd, ?_, rfl⟩
        have hfl := (dictGetItem_ok_iff _ _ _).mp hf
        rw [dictLookup_dictPop_ne _ "digest" "filename" (by decide),
          dictLookup_dictPop_ne _ "url" "filename" (by decide)] at hfl
        exact hfl

theorem build_additions_forall2 {additions : List PyDict} {contents : List PendingContent}
    (h : build_additions additions = Except.ok contents) :
    List.Forall₂ (fun (u : PendingContent) (r : PyDict) =>
      dictLookup r "url" = some u.artifact.url ∧
        dictLookup r "digest" = some u.artifact.sha256 ∧
        dictLookup r "filename" = some u.artifact.relative_path ∧
        u.package = dictPop (dictPop r "url") "digest") contents additions := by
  induction additions generalizing contents with
  | nil =>
    cases h
    exact List.Forall₂.nil
  | cons entry rest ih =>
    revert h
    unfold build_additions
    cases hb : build_addition entry with
    | error k => intro h; cases h
    | ok content =>
      dsimp only
      cases hr : build_additions rest with
      | error k => intro h; cases h
      | ok contents2 =>
        intro h
        cases h
        exact List.Forall₂.cons (build_addition_ok hb) (ih hr)

/-! ### Claim theorems about `_build_additions` -/

/-- Record produced by the normalizer from `projectW`, version `1.0` and
`distributionSha`. -/
def recordX : PyDict :=
  [("filename", PyVal.str "a-1.0.tar.gz"),
   ("packagetype", PyVal.str "sdist"),
   ("name", PyVal.str "a"),
   ("version", PyVal.str "1.0"),
   ("metadata_version", PyVal.str "3.0"),
   ("summary", PyVal.pyNone),
   ("description", PyVal.pyNone),
   ("keywords", PyVal.pyNone),
   ("home_page", PyVal.pyNone),
   ("download_url", PyVal.pyNone),
   ("author", PyVal.pyNone),
   ("author_email", PyVal.pyNone),
   ("maintainer", PyVal.pyNone),
   ("maintainer_email", PyVal.pyNone),
   ("license", PyVal.pyNone),
   ("requires_python", PyVal.pyNone),
   ("project_url", PyVal.pyNone),
   ("platform", PyVal.pyNone),
   ("supported_platform", PyVal.pyNone),
   ("requires_dist", PyVal.listStr []),
   ("provides_dist", PyVal.listStr []),
   ("obsoletes_dist", PyVal.listStr []),
   ("requires_external", PyVal.listStr []),
   ("url", PyVal.str "https://example.invalid/a-1.0.tar.gz"),
   ("digest", PyVal.str "0abc")]

/-- `recordX` as the builder leaves it: the `url` and `digest` entries gone. -/
def recordXPopped : PyDict :=
  [("filename", PyVal.str "a-1.0.tar.gz"),
   ("packagetype", PyVal.str "sdist"),
   ("name", PyVal.str "a"),
   ("version", PyVal.str "1.0"),
   ("metadata_version", PyVal.str "3.0"),
   ("summary", PyVal.pyNone),
   ("description", PyVal.pyNone),
   ("keywords", PyVal.pyNone),
   ("home_page", PyVal.pyNone),
   ("download_url", PyVal.pyNone),
   ("author", PyVal.pyNone),
   ("author_email", PyVal.pyNone),
   ("maintainer", PyVal.pyNone),
   ("maintainer_email", PyVal.pyNone),
   ("license", PyVal.pyNone),
   ("requires_python", PyVal.pyNone),
   ("project_url", PyVal.pyNone),
   ("platform", PyVal.pyNone),
   ("supported_platform", PyVal.pyNone),
   ("requires_dist", PyVal.listStr []),
   ("provides_dist", PyVal.listStr []),
   ("obsoletes_dist", PyVal.listStr []),
   ("requires_external", PyVal.listStr [])]

/-- The pending unit the builder yields for `recordX`. -/
def contentX : PendingContent :=
  PendingContent.mk recordXPopped
    (PendingArtifact.mk (PyVal.str "0abc")
      (PyVal.str "https://example.invalid/a-1.0.tar.gz")
      (PyVal.str "a-1.0.tar.gz"))

/-- C8 counterexample: a record constructed by the normalizer does *not* keep
exactly the fields it was constructed with once the builder has processed it:
`entry.pop('url')` and `entry.pop('digest')` mutate it, so the record the
pending unit carries differs from the record the normalizer built. -/
theorem build_addition_mutates_record_cex :
    parse_package projectW "1.0" distributionSha = Except.ok recordX ∧
      build_addition recordX = Except.ok contentX ∧
      contentX.package ≠ recordX :=
  ⟨rfl, rfl, by decide⟩

/-- C8 amended: building a pending unit removes exactly the `url` and `digest`
fields from the addition record (the two in-place `pop` mutations); every
other field keeps the value the normalizer set. -/
theorem build_addition_pops_url_digest (entry : PyDict) (content : PendingContent)
    (h : build_addition entry = Except.ok content) :
    dictLookup content.package "url" = none ∧
      dictLookup content.package "digest" = none ∧
      ∀ k, k ≠ "url" → k ≠ "digest" →
        dictLookup content.package k = dictLookup entry k := by
  obtain ⟨-, -, -, hpkg⟩ := build_addition_ok h
  rw [hpkg]
  refine ⟨?_, ?_, ?_⟩
  · rw [dictLookup_dictPop_ne _ "digest" "url" (by decide)]
    exact dictLookup_dictPop_self entry "url"
  · exact dictLookup_dictPop_self _ "digest"
  · intro k hk1 hk2
    rw [dictLookup_dictPop_ne _ "digest" k (Ne.symm hk2),
      dictLookup_dictPop_ne _ "url" k (Ne.symm hk1)]

/-- Witness for the amended C8 at a normalizer-built record. -/
theorem build_addition_pops_url_digest_witness :
    build_addition recordX = Except.ok contentX ∧
      dictLookup contentX.package "url" = none ∧
      dictLookup contentX.package "digest" = none ∧
      dictLookup contentX.package "filename" = dictLookup recordX "filename" :=
  ⟨rfl, (build_addition_pops_url_digest recordX contentX rfl).1,
    (build_addition_pops_url_digest recordX contentX rfl).2.1,
    (build_addition_pops_url_digest recordX contentX rfl).2.2 "filename"
      (by decide) (by decide)⟩

/-! ### Claim theorems about `_fetch_remote` and `sync` -/

theorem fetchUrls_append {ε : Type} (fetchJson : String → Except ε PypiMetadata)
    (us vs : List String) (remote : List PyDict) :
    fetchUrls fetchJson remote (us ++ vs) =
      match fetchUrls fetchJson remote us with
      | Except.ok r => fetchUrls fetchJson r vs
      | Except.error e => Except.error e := by
  induction us generalizing remote with
  | nil => simp [fetchUrls]
  | cons u us ih =>
    cases hj : fetchJson u with
    | error e => simp [fetchUrls, hj]
    | ok metadata =>
      cases hr : parseReleases metadata.info remote metadata.releases with
      | error k => simp [fetchUrls, hj, hr]
      | ok remote2 => simp [fetchUrls, hj, hr, ih remote2]

/-- C7: if the fetch collaborator fails for project `p`'s metadata URL (all
earlier projects having fetched and parsed cleanly), the whole sync cycle
fails with exactly that fetch error — the failure raised for the URL built
from `p`'s name — and nothing is ever handed to the changeset collaborator
(`sync` aborts before the changeset stage, so no pending unit from any
project of the cycle is committed). -/
theorem sync_fetch_error_aborts {ε : Type} (fetchJson : String → Except ε PypiMetadata)
    (feed : String) (pre : List String) (p : String) (post : List String)
    (inventory : List String) (e : ε) (remotePre : List PyDict)
    (hpre : fetchUrls fetchJson []
      (pre.map (fun q => metadataUrl feed q)) = Except.ok remotePre)
    (hp : fetchJson (metadataUrl feed p) = Except.error e) :
    sync fetchJson feed (pre ++ p :: post) inventory = Except.error (SyncErr.fetch e) := by
  have hfr : fetch_remote fetchJson feed (pre ++ p :: post) =
      Except.error (SyncErr.fetch e) := by
    unfold fetch_remote
    rw [List.map_append, List.map_cons, fetchUrls_append, hpre]
    simp [fetchUrls, hp]
  unfold sync
  rw [hfr]

/-- Fetch collaborator that fails for project `b`'s metadata URL and succeeds
(with an empty release list) everywhere else. -/
def fetchJsonFail : String → Except String PypiMetadata := fun url =>
  if url == metadataUrl "https://pypi.org/" "b" then Except.error "connection refused"
  else Except.ok (PypiMetadata.mk projectW [])

/-- Witness for C7: project list `[a, b, c]`, the fetch of `b` fails, and the
cycle aborts with that error. -/
theorem sync_fetch_error_aborts_witness :
    fetchUrls fetchJsonFail []
        (["a"].map (fun q => metadataUrl "https://pypi.org/" q)) = Except.ok [] ∧
      fetchJsonFail (metadataUrl "https://pypi.org/" "b") =
        Except.error "connection refused" ∧
      sync fetchJsonFail "https://pypi.org/" (["a"] ++ "b" :: ["c"]) [] =
        Except.error (SyncErr.fetch "connection refused") :=
  ⟨rfl, rfl,
    sync_fetch_error_aborts fetchJsonFail "https://pypi.org/" ["a"] "b" ["c"] []
      "connection refused" [] rfl rfl⟩

/-- C10: a successful sync hands the changeset collaborator exactly one
pending unit per record of `delta.additions`, in order: each unit's artifact
carries that record's `url` value and `digest` (sha256) value, its relative
path is the record's filename, and the declared total equals the number of
additions.  The stream is built from `delta.additions` alone, so no removal
record is ever part of it. -/
theorem sync_success_stream {ε : Type} (fetchJson : String → Except ε PypiMetadata)
    (feed : String) (project_names inventory : List String) (c : ChangeSetApplied)
    (h : sync fetchJson feed project_names inventory = Except.ok c) :
    ∃ remote delta,
      fetch_remote fetchJson feed project_names = Except.ok remote ∧
        find_delta inventory remote true = Except.ok delta ∧
        build_additions delta.additions = Except.ok c.additions ∧
        c.declaredCount = delta.additions.length ∧
        List.Forall₂ (fun (u : PendingContent) (r : PyDict) =>
          dictLookup r "url" = some u.artifact.url ∧
            dictLookup r "digest" = some u.artifact.sha256 ∧
            dictLookup r "filename" = some u.artifact.relative_path ∧
            u.package = dictPop (dictPop r "url") "digest") c.additions delta.additions := by
  revert h
  unfold sync
  cases hfr : fetch_remote fetchJson feed project_names with
  | error e => intro h; cases h
  | ok remote =>
    dsimp only
    cases hfd : find_delta inventory remote true with
    | error k => intro h; cases h
    | ok delta =>
      dsimp only
      cases hba : build_additions delta.additions with
      | error k => intro h; cases h
      | ok additions =>
        intro h
        cases h
        exact ⟨remote, delta, rfl, hfd, hba, rfl, build_additions_forall2 hba⟩

/-- Fetch collaborator that always succeeds with one release holding one
distribution. -/
def fetchJsonOk : String → Except String PypiMetadata := fun _ =>
  Except.ok (PypiMetadata.mk projectW [("1.0", [distributionSha])])

/-- Witness for C10: one project, one release, one distribution; the stream
handed over is the one built pending unit and the declared count is 1. -/
theorem sync_success_stream_witness :
    sync fetchJsonOk "https://pypi.org/" ["a"] [] =
        Except.ok (ChangeSetApplied.mk [contentX] 1) ∧
      (∃ remote delta,
        fetch_remote fetchJsonOk "https://pypi.org/" ["a"] = Except.ok remote ∧
          find_delta [] remote true = Except.ok delta ∧
          build_additions delta.additions =
            Except.ok (ChangeSetApplied.mk [contentX] 1).additions ∧
          (ChangeSetApplied.mk [contentX] 1).declaredCount = delta.additions.length ∧
          List.Forall₂ (fun (u : PendingContent) (r : PyDict) =>
            dictLookup r "url" = some u.artifact.url ∧
              dictLookup r "digest" = some u.artifact.sha256 ∧
              dictLookup r "filename" = some u.artifact.relative_path ∧
              u.package = dictPop (dictPop r "url") "digest")
            (ChangeSetApplied.mk [contentX] 1).additions delta.additions) :=
  ⟨rfl,
    sync_success_stream fetchJsonOk "https://pypi.org/" ["a"] []
      (ChangeSetApplied.mk [contentX] 1) rfl⟩

end PulpPython
